import Mathlib

/-!
Shallow embedding of the rrs-api reservation system core
(reservation_system/user_api.py and reservation_system/_api.py).

Conventions of the embedding:
- Python dict request bodies become records with Option fields, or
  association lists when the code inspects the key set.
- Database helper functions that live in the db module (absent from the
  sources: only their call sites are available) are supplied as an
  environment of functions; enum constants referenced from db are taken
  from the handler docstrings and the spec glossary.
- Every externally observable database interaction of the create handler
  is recorded in an effect trace, so that ordering and absence of writes
  can be stated.
- abort(code, message) becomes an Except.error carrying the code and
  message; a successful return becomes Except.ok.
-/

namespace RRS

/-- Time slot: a pair of start time and end time (opaque time scale). -/
structure TimeSlot where
  start_time : Nat
  end_time : Nat
  deriving DecidableEq, Repr

/- User roles, ordered integers per the spec glossary and the handler
docstring table: BLOCKED(-1) < RESTRICTED(0) < BASIC(1) < ADVANCED(2). -/
namespace UserRole

def BLOCKED : Int := -1

def RESTRICTED : Int := 0

def BASIC : Int := 1

def ADVANCED : Int := 2

end UserRole

/-- Reservation status values used by the handlers (db.ResvStatus). -/
inductive ResvStatus where
  | PENDING
  | CONFIRMED
  | CANCELLED
  deriving DecidableEq, Repr

/-- Reservation visibility values (db.SecuLevel / db.ResvPrivacy). -/
inductive SecuLevel where
  | PUBLIC
  | PRIVATE
  | ANONYMOUS
  deriving DecidableEq, Repr

/-- Reservation type from the decision table in the create handler
docstring: BASIC exactly for a single in-window, in-limit slot. -/
inductive ResvType where
  | BASIC
  | ADVANCED
  deriving DecidableEq, Repr

/-- Reservation type column of the docstring decision table, as a function
of slot count and the two time predicates. -/
def reservationType (slot_num : Nat) (w l : Bool) : ResvType :=
  if slot_num = 1 ∧ w = true ∧ l = true then ResvType.BASIC else ResvType.ADVANCED

/-- Result of abort(code, message). -/
structure Abort where
  code : Nat
  message : String
  deriving DecidableEq, Repr

/-- A mysql.connector Error as observed by the handler: errno and msg. -/
structure DBError where
  errno : Nat
  msg : String
  deriving DecidableEq, Repr

/-- mysql.connector errorcode.ER_DUP_ENTRY. -/
def ER_DUP_ENTRY : Nat := 1062

/-- Request body of the create handler, a JSON dict with optional keys.
status, secu_level and username may be supplied by the client but are
overwritten by the handler. -/
structure ReqData where
  room_id : Option Nat
  title : Option String
  time_slots : Option (List TimeSlot)
  note : Option String
  session_id : Option Nat
  status : Option ResvStatus
  secu_level : Option SecuLevel
  username : Option String
  deriving DecidableEq, Repr

/-- Observable database interactions of the create handler, in call order. -/
inductive Effect where
  | timeWindowCheck (slots : List TimeSlot)
  | timeLimitCheck (slots : List TimeSlot)
  | roomCheck (room_id : Nat)
  | quotaCheck (username : String)
  | periodsCheck (slots : List TimeSlot)
  | insertResv (d : ReqData)
  deriving DecidableEq, Repr

/-- Environment of db-module functions consumed by the create handler.
The db module is outside the given sources; each field models the
contract its call site assumes. -/
structure Env where
  in_time_window : List TimeSlot → Bool
  in_time_limit : List TimeSlot → Bool
  room_available : Nat → Bool
  below_max_daily : String → Bool
  is_comb_of_periods : List TimeSlot → Bool
  insert : ReqData → Except DBError Nat

/-- Status assignment section of Reservation.post (user_api.py lines
111-126). In the source, data.status starts as PENDING and is overwritten
to CONFIRMED on the two confirming branches; here the final value is
returned. The trace records the db.Setting calls made on the
role < ADVANCED path. -/
def assignStatus (env : Env) (role : Int) (data : ReqData) (slots : List TimeSlot) :
    Except Abort ResvStatus × List Effect :=
  if UserRole.ADVANCED ≤ role then
    (Except.ok ResvStatus.CONFIRMED, [])
  else
    let slot_num := slots.length
    if slot_num > 1 ∧ data.session_id = none then
      (Except.error ⟨400, "Missing session_id"⟩, [])
    else
      let w := env.in_time_window slots
      let l := env.in_time_limit slots
      let tr := [Effect.timeWindowCheck slots, Effect.timeLimitCheck slots]
      if role ≤ UserRole.RESTRICTED then
        if slot_num > 1 ∨ w = false ∨ l = false then
          (Except.error ⟨400, "Access denied"⟩, tr)
        else
          (Except.ok ResvStatus.PENDING, tr)
      else if role = UserRole.BASIC then
        if slot_num = 1 ∧ w = true ∧ l = true then
          (Except.ok ResvStatus.CONFIRMED, tr)
        else
          (Except.ok ResvStatus.PENDING, tr)
      else
        (Except.ok ResvStatus.PENDING, tr)

/-- Post-admission section of Reservation.post (user_api.py lines
128-151): room availability, daily quota, period-combination checks in
that order, then username injection and the guarded insert. -/
def postChecks (env : Env) (caller : String) (d : ReqData) (room_id : Nat)
    (slots : List TimeSlot) (tr : List Effect) :
    Except Abort (Nat × ReqData) × List Effect :=
  let tr := tr ++ [Effect.roomCheck room_id]
  if env.room_available room_id = false then
    (Except.error ⟨400, "Room not available"⟩, tr)
  else
    let tr := tr ++ [Effect.quotaCheck caller]
    if env.below_max_daily caller = false then
      (Except.error ⟨400, "Reservation per day limit reached"⟩, tr)
    else
      let tr := tr ++ [Effect.periodsCheck slots]
      if env.is_comb_of_periods slots = false then
        (Except.error ⟨400, "Time_slots must be combination of periods"⟩, tr)
      else
        let d := { d with username := some caller }
        let tr := tr ++ [Effect.insertResv d]
        match env.insert d with
        | Except.error err =>
          if err.errno = ER_DUP_ENTRY then
            (Except.error ⟨409, "Reservation already exists"⟩, tr)
          else
            (Except.error ⟨500, "Database error: " ++ err.msg⟩, tr)
        | Except.ok resv_id => (Except.ok (resv_id, d), tr)

/-- Reservation.post (user_api.py lines 76-151). The secu_level
assignment of line 109 and the status assignment are merged into the
record update on the payload handed to postChecks; neither field is read
in between. On success the handler returns the new resv_id together with
the payload that was inserted. -/
def reservationPost (env : Env) (role : Int) (caller : String) (data : ReqData) :
    Except Abort (Nat × ReqData) × List Effect :=
  if role ≤ UserRole.BLOCKED then
    (Except.error ⟨403, "Access denied"⟩, [])
  else
    match data.room_id, data.title, data.time_slots with
    | some room_id, some _, some slots =>
      if slots.isEmpty then
        (Except.error ⟨400, "Time_slots cannot be empty"⟩, [])
      else
        match assignStatus env role data slots with
        | (Except.error a, tr) => (Except.error a, tr)
        | (Except.ok st, tr) =>
          postChecks env caller
            { data with secu_level := some SecuLevel.PUBLIC, status := some st }
            room_id slots tr
    | _, _, _ => (Except.error ⟨400, "Missing required fields"⟩, [])

/-! Generic dict rows, for the handlers that inspect key sets
(public reservation listing, patch payload, slot delete body). -/

/-- Field value of a dict row coming from or going to storage. -/
inductive Value where
  | str (s : String)
  | nat (n : Nat)
  | status (s : ResvStatus)
  | privacy (p : SecuLevel)
  deriving DecidableEq, Repr

/-- A storage row or JSON object as an association list, standing in for a
Python dict with unique keys. -/
abbrev Row : Type := List (String × Value)

/-- Lookup of r[k]. -/
def dictGet (r : Row) (k : String) : Option Value :=
  (List.find? (fun kv => kv.1 = k) r).map (fun kv => kv.2)

/-- Effect of r.pop(k): the row without key k. -/
def popField (r : Row) (k : String) : Row :=
  List.filter (fun kv => decide (kv.1 ≠ k)) r

/-- Reduced dict built in the PRIVATE branch of the public listing
(_api.py lines 74-79): only start_time, end_time, status, room_id. -/
def privateView (r : Row) : Row :=
  [("start_time", (dictGet r "start_time").getD (Value.str "")),
   ("end_time", (dictGet r "end_time").getD (Value.str "")),
   ("status", (dictGet r "status").getD (Value.str "")),
   ("room_id", (dictGet r "room_id").getD (Value.str ""))]

/-- Privacy post-processing loop of the public Reservations.get
(_api.py lines 69-80). The ANONYMOUS branch mutates the row in place via
pop, so it is visible in the returned list. The PRIVATE branch rebinds
the loop variable r to a reduced dict; in Python this rebinding is not
written back into the list res, so the element of the returned list is
unchanged by it. -/
def checkPrivacy (res : List Row) : List Row :=
  res.map (fun r =>
    let r := if dictGet r "privacy" = some (Value.privacy SecuLevel.ANONYMOUS)
             then popField r "username" else r
    let _discarded := if dictGet r "privacy" = some (Value.privacy SecuLevel.PRIVATE)
                      then privateView r else r
    r)

/-! Reservation.patch (user_api.py lines 154-177). -/

/-- Request body of the patch handler: the outer dict must carry resv_id
and data; data is the dict of fields to update. -/
structure PatchBody where
  resv_id : Option Nat
  data : Option Row
  deriving Repr

/-- Keys allowed in the patch payload (user_api.py line 169). -/
def patchAllowedKey (k : String) : Bool :=
  k = "title" ∨ k = "note" ∨ k = "status"

/-- Reservation.patch (user_api.py lines 154-177). upd models
db.Reservation.update; the Bool output records whether update was
called (the only write of this handler). -/
def reservationPatch (upd : Nat → String → Row → Except DBError Unit)
    (role : Int) (caller : String) (body : PatchBody) :
    Except Abort String × Bool :=
  if role ≤ UserRole.BLOCKED then
    (Except.error ⟨403, "Access denied"⟩, false)
  else
    match body.resv_id, body.data with
    | some rid, some d =>
      if dictGet d "status" ≠ none ∧ dictGet d "status" ≠ some (Value.status ResvStatus.CANCELLED) then
        (Except.error ⟨400, "Invalid status"⟩, false)
      else if d.any (fun kv => ¬ patchAllowedKey kv.1) then
        (Except.error ⟨400, "Invalid fields"⟩, false)
      else
        match upd rid caller d with
        | Except.error err => (Except.error ⟨500, "Database error: " ++ err.msg⟩, true)
        | Except.ok _ => (Except.ok "Reservation updated successfully", true)
    | _, _ => (Except.error ⟨400, "Missing required fields"⟩, false)

/-- Test for a client-error (4xx) outcome. -/
def isClientError {α : Type} : Except Abort α → Bool
  | Except.error a => 400 ≤ a.code ∧ a.code < 500
  | Except.ok _ => false

/-! Reservation.delete (user_api.py lines 180-198). -/

/-- A time slot row of the time-slot table, with the columns the delete
where-clause can touch. -/
structure SlotRow where
  resv_id : Nat
  slot_id : Nat
  username : String
  start_time : Nat
  end_time : Nat
  deriving DecidableEq, Repr

/-- Test for set(data.keys()) == set2 of two given keys, on an association
list body. -/
def keySetIs (body : List (String × Nat)) (k1 k2 : String) : Bool :=
  body.all (fun kv => kv.1 = k1 ∨ kv.1 = k2) ∧
  body.any (fun kv => kv.1 = k1) ∧ body.any (fun kv => kv.1 = k2)

/-- Lookup in the delete body. -/
def bodyGet (body : List (String × Nat)) (k : String) : Option Nat :=
  (List.find? (fun kv => kv.1 = k) body).map (fun kv => kv.2)

/-- Modelled from the spec: db.delete(table, where) is not under the
given sources; per the storage contract of spec section 6 it removes
every row of the table matching all entries of the where dict, here
resv_id, slot_id and username. -/
def deleteWhere (table : List SlotRow) (rid sid : Nat) (u : String) : List SlotRow :=
  table.filter (fun r => ¬ (r.resv_id = rid ∧ r.slot_id = sid ∧ r.username = u))

/-- Reservation.delete (user_api.py lines 180-198): role gate, exact key
set check, then db.delete scoped by the injected caller username. The
second component is the time-slot table after the call. -/
def reservationDelete (role : Int) (caller : String) (body : List (String × Nat))
    (table : List SlotRow) : Except Abort String × List SlotRow :=
  if role ≤ UserRole.BLOCKED then
    (Except.error ⟨403, "Access denied"⟩, table)
  else if keySetIs body "resv_id" "slot_id" = false then
    (Except.error ⟨400, "Invalid or missing fields"⟩, table)
  else
    let rid := (bodyGet body "resv_id").getD 0
    let sid := (bodyGet body "slot_id").getD 0
    (Except.ok "Time slot deleted successfully", deleteWhere table rid sid caller)

/-! Reservation.get of the user API (user_api.py lines 64-73), together
with a spec-modelled db.Reservation.get. -/

/-- Query-string dict: keys to string values. -/
abbrev QDict : Type := List (String × String)

/-- Effect of where[k] = v on a Python dict rendered as an association
list: replace the value in place when the key exists, append otherwise. -/
def dictSet (d : QDict) (k v : String) : QDict :=
  if d.any (fun kv => kv.1 = k) then
    d.map (fun kv => if kv.1 = k then (k, v) else kv)
  else
    d ++ [(k, v)]

/-- String-valued row field lookup for the reservation listing. -/
def rowGet (r : QDict) (k : String) : Option String :=
  (List.find? (fun kv => kv.1 = k) r).map (fun kv => kv.2)

/-- Row matches one where-dict entry. -/
def matchKV (r : QDict) (kv : String × String) : Bool :=
  rowGet r kv.1 = some kv.2

/-- Row matches every entry of the where dict. -/
def matchesWhere (r : QDict) (w : QDict) : Bool :=
  w.all (matchKV r)

/-- Modelled from the spec: db.Reservation.get is not under the given
sources; per the storage contract of spec section 6 it is a select
returning the rows of the reservation table that match every entry of
the where dict. -/
def reservationSelect (table : List QDict) (w : QDict) : List QDict :=
  table.filter (fun r => matchesWhere r w)

/-- Reservation.get of the user API (user_api.py lines 64-73): the query
args become the where dict and the username entry is overwritten with the
authenticated caller before the select. -/
def userReservationGet (table : List QDict) (caller : String) (args : QDict) : List QDict :=
  reservationSelect table (dictSet args "username" caller)

/-! Concrete fixtures used to instantiate theorems with hypotheses. -/

/-- Environment in which every policy predicate passes and the insert
succeeds with resv_id 7. -/
def envW : Env :=
  { in_time_window := fun _ => true, in_time_limit := fun _ => true,
    room_available := fun _ => true, below_max_daily := fun _ => true,
    is_comb_of_periods := fun _ => true, insert := fun _ => Except.ok 7 }

/-- Sample slot 8-9. -/
def slotA : TimeSlot := ⟨8, 9⟩

/-- Sample slot 9-10. -/
def slotB : TimeSlot := ⟨9, 10⟩

/-- Well-formed single-slot create body with a session id. -/
def dataW : ReqData :=
  { room_id := some 1, title := some "t", time_slots := some [slotA],
    note := none, session_id := some 4, status := none, secu_level := none,
    username := none }

/-- Two-slot create body without a session id. -/
def dataTwoNoSess : ReqData :=
  { dataW with time_slots := some [slotA, slotB], session_id := none }

/-- Reservation row with privacy PRIVATE and a username, as returned by
the storage select of the public listing. -/
def rowPrivate : Row :=
  [("resv_id", Value.nat 1), ("username", Value.str "bob"),
   ("privacy", Value.privacy SecuLevel.PRIVATE), ("title", Value.str "secret"),
   ("start_time", Value.nat 10), ("end_time", Value.nat 11),
   ("status", Value.status ResvStatus.CONFIRMED), ("room_id", Value.nat 3)]

/-- Reservation row with privacy ANONYMOUS and a username. -/
def rowAnon : Row :=
  [("resv_id", Value.nat 2), ("username", Value.str "carol"),
   ("privacy", Value.privacy SecuLevel.ANONYMOUS), ("title", Value.str "talk"),
   ("start_time", Value.nat 12), ("end_time", Value.nat 13),
   ("status", Value.status ResvStatus.PENDING), ("room_id", Value.nat 3)]

/-- One-row time-slot table: slot 8 of reservation 5, owned by bob. -/
def tableW : List SlotRow := [⟨5, 8, "bob", 10, 11⟩]

/-! Theorems. -/

/-- C1: the status and reservation type assigned by the create handler
follow the decision table of spec section 4.4: a role at or below BLOCKED
is rejected as forbidden; a RESTRICTED caller gets PENDING with type
BASIC for exactly one in-window, in-limit slot and is rejected otherwise;
a BASIC caller gets CONFIRMED with type BASIC for exactly one in-window,
in-limit slot and PENDING with type ADVANCED otherwise; a role at or
above ADVANCED always gets CONFIRMED. The session id is assumed present,
so that the multi-slot rejection of RESTRICTED callers is the access
denial of the decision table rather than the missing-session validation
error. -/
theorem c1_admission_decision_table (env : Env) (role : Int) (caller : String)
    (data : ReqData) (slots : List TimeSlot)
    (hsl : data.time_slots = some slots) (hne : slots ≠ [])
    (hsess : data.session_id ≠ none) :
    (role ≤ UserRole.BLOCKED →
      (reservationPost env role caller data).1 = Except.error ⟨403, "Access denied"⟩)
    ∧ (role = UserRole.RESTRICTED →
        if slots.length = 1 ∧ env.in_time_window slots = true ∧ env.in_time_limit slots = true then
          (assignStatus env role data slots).1 = Except.ok ResvStatus.PENDING
            ∧ reservationType slots.length (env.in_time_window slots)
                (env.in_time_limit slots) = ResvType.BASIC
        else
          (assignStatus env role data slots).1 = Except.error ⟨400, "Access denied"⟩)
    ∧ (role = UserRole.BASIC →
        if slots.length = 1 ∧ env.in_time_window slots = true ∧ env.in_time_limit slots = true then
          (assignStatus env role data slots).1 = Except.ok ResvStatus.CONFIRMED
            ∧ reservationType slots.length (env.in_time_window slots)
                (env.in_time_limit slots) = ResvType.BASIC
        else
          (assignStatus env role data slots).1 = Except.ok ResvStatus.PENDING
            ∧ reservationType slots.length (env.in_time_window slots)
                (env.in_time_limit slots) = ResvType.ADVANCED)
    ∧ (UserRole.ADVANCED ≤ role →
        (assignStatus env role data slots).1 = Except.ok ResvStatus.CONFIRMED) := by
  have hlen0 : slots.length ≠ 0 := by
    intro h
    exact hne (List.length_eq_zero.mp h)
  refine ⟨?_, ?_, ?_, ?_⟩
  · intro h
    simp [reservationPost, h]
  · intro h
    subst h
    have hlen : slots.length = 1 ∨ 1 < slots.length := by omega
    by_cases hc : slots.length = 1 ∧ env.in_time_window slots = true ∧ env.in_time_limit slots = true
    · obtain ⟨h1, hw, hl⟩ := hc
      rw [if_pos ⟨h1, hw, hl⟩]
      simp [assignStatus, reservationType, UserRole.ADVANCED, UserRole.RESTRICTED, hsess, h1, hw, hl]
    · rw [if_neg hc]
      push_neg at hc
      rcases hlen with h1 | h1
      · rcases Bool.eq_false_or_eq_true (env.in_time_window slots) with hw | hw
        · have hl : env.in_time_limit slots = false := by
            rcases Bool.eq_false_or_eq_true (env.in_time_limit slots) with hl | hl
            · exact absurd hl (hc h1 hw)
            · exact hl
          simp [assignStatus, UserRole.ADVANCED, UserRole.RESTRICTED, hsess, h1, hw, hl]
        · simp [assignStatus, UserRole.ADVANCED, UserRole.RESTRICTED, hsess, h1, hw]
      · simp [assignStatus, UserRole.ADVANCED, UserRole.RESTRICTED, hsess, h1]
  · intro h
    subst h
    by_cases hc : slots.length = 1 ∧ env.in_time_window slots = true ∧ env.in_time_limit slots = true
    · obtain ⟨h1, hw, hl⟩ := hc
      rw [if_pos ⟨h1, hw, hl⟩]
      simp [assignStatus, reservationType, UserRole.ADVANCED, UserRole.RESTRICTED, UserRole.BASIC,
        hsess, h1, hw, hl]
    · rw [if_neg hc]
      constructor
      · simp only [assignStatus, UserRole.ADVANCED, UserRole.BASIC, UserRole.RESTRICTED]
        norm_num
        simp [hsess, hc]
      · simp [reservationType, hc]
  · intro h
    simp [assignStatus, h]

/-- Witness for C1: a RESTRICTED caller with one in-window, in-limit slot
gets PENDING. -/
theorem c1_admission_decision_table_witness :
    (assignStatus envW 0 dataW [slotA]).1 = Except.ok ResvStatus.PENDING := by
  have h := c1_admission_decision_table envW 0 "alice" dataW [slotA]
    (by simp [dataW]) (by simp) (by simp [dataW])
  have h2 := h.2.1 rfl
  simpa [envW] using h2.1

/-- Helper: the status-assignment section performs no insert. -/
lemma assignStatus_no_insert (env : Env) (role : Int) (data : ReqData)
    (slots : List TimeSlot) (d : ReqData) :
    Effect.insertResv d ∉ (assignStatus env role data slots).2 := by
  simp only [assignStatus]
  split_ifs <;> simp

/-- C2: every rejection of the create handler (forbidden classification,
room unavailable, daily quota reached, invalid period combination)
returns a client error and leaves no insert in the interaction trace; for
every non-forbidden request, ADVANCED callers included, the
post-admission checks run in the order room availability, daily quota,
period combination, stopping at the first failure. -/
theorem c2_rejection_order_and_no_write (env : Env) (role : Int) (caller : String)
    (data : ReqData) (room_id : Nat) (title : String) (slots : List TimeSlot)
    (hrid : data.room_id = some room_id) (ht : data.title = some title)
    (hsl : data.time_slots = some slots) (hne : slots ≠ [])
    (hrole : UserRole.BLOCKED < role) :
    (∀ (a : Abort) (tr : List Effect),
      assignStatus env role data slots = (Except.error a, tr) →
      reservationPost env role caller data = (Except.error a, tr) ∧
      a.code = 400 ∧
      ∀ d, Effect.insertResv d ∉ (reservationPost env role caller data).2)
    ∧ (∀ (st : ResvStatus) (ctr : List Effect),
        assignStatus env role data slots = (Except.ok st, ctr) →
        (if env.room_available room_id = false then
          reservationPost env role caller data =
            (Except.error ⟨400, "Room not available"⟩, ctr ++ [Effect.roomCheck room_id])
        else if env.below_max_daily caller = false then
          reservationPost env role caller data =
            (Except.error ⟨400, "Reservation per day limit reached"⟩,
              ctr ++ [Effect.roomCheck room_id, Effect.quotaCheck caller])
        else if env.is_comb_of_periods slots = false then
          reservationPost env role caller data =
            (Except.error ⟨400, "Time_slots must be combination of periods"⟩,
              ctr ++ [Effect.roomCheck room_id, Effect.quotaCheck caller,
                Effect.periodsCheck slots])
        else True)
        ∧ ((env.room_available room_id = false ∨ env.below_max_daily caller = false ∨
            env.is_comb_of_periods slots = false) →
            ∀ d, Effect.insertResv d ∉ (reservationPost env role caller data).2)) := by
  have hname : ¬ role ≤ UserRole.BLOCKED := not_le.mpr hrole
  have hemp : slots.isEmpty = false := by
    cases slots
    · exact absurd rfl hne
    · rfl
  constructor
  · intro a tr hassign
    have hpost : reservationPost env role caller data = (Except.error a, tr) := by
      simp [reservationPost, hname, hrid, ht, hsl, hemp, hassign]
    have hcode : a.code = 400 := by
      revert hassign
      simp only [assignStatus]
      split_ifs <;> intro h <;> simp at h <;> obtain ⟨h1, h2⟩ := h <;> subst h1 <;> rfl
    refine ⟨hpost, hcode, ?_⟩
    intro d
    rw [hpost]
    have := assignStatus_no_insert env role data slots d
    rw [hassign] at this
    exact this
  · intro st ctr hassign
    have hctr : ∀ d, Effect.insertResv d ∉ ctr := by
      intro d
      have := assignStatus_no_insert env role data slots d
      rw [hassign] at this
      exact this
    have hpost : reservationPost env role caller data =
        postChecks env caller
          { data with secu_level := some SecuLevel.PUBLIC, status := some st }
          room_id slots ctr := by
      simp [reservationPost, hname, hrid, ht, hsl, hemp, hassign]
    constructor
    · by_cases hroom : env.room_available room_id = false
      · rw [if_pos hroom, hpost]
        simp [postChecks, hroom]
      · rw [if_neg hroom]
        by_cases hq : env.below_max_daily caller = false
        · rw [if_pos hq, hpost]
          simp [postChecks, hroom, hq]
        · rw [if_neg hq]
          by_cases hp : env.is_comb_of_periods slots = false
          · rw [if_pos hp, hpost]
            simp [postChecks, hroom, hq, hp]
          · rw [if_neg hp]
            trivial
    · intro hfail d
      rw [hpost]
      unfold postChecks
      rcases hfail with hroom | hq | hp
      · simp [hroom, hctr d]
      · by_cases hroom : env.room_available room_id = false
        · simp [hroom, hctr d]
        · simp [hroom, hq, hctr d]
      · by_cases hroom : env.room_available room_id = false
        · simp [hroom, hctr d]
        · by_cases hq : env.below_max_daily caller = false
          · simp [hroom, hq, hctr d]
          · simp [hroom, hq, hp, hctr d]

/-- Witness for C2: an ADVANCED caller against an unavailable room is
rejected with no insert recorded. -/
theorem c2_rejection_order_and_no_write_witness :
    reservationPost { envW with room_available := fun _ => false } 2 "alice" dataW =
      (Except.error ⟨400, "Room not available"⟩, [Effect.roomCheck 1]) := by
  have h := c2_rejection_order_and_no_write
    { envW with room_available := fun _ => false } 2 "alice" dataW 1 "t" [slotA]
    rfl rfl rfl (by simp) (by norm_num [UserRole.BLOCKED])
  have h2 := (h.2 ResvStatus.CONFIRMED [] (by rfl)).1
  simpa using h2

/-- Helper: the post-admission section never aborts with the
missing-session message; its aborts carry code 409 or 500 or one of the
three fixed policy messages. -/
lemma postChecks_not_session_error (env : Env) (caller : String) (d : ReqData)
    (room_id : Nat) (slots : List TimeSlot) (tr : List Effect) :
    (postChecks env caller d room_id slots tr).1 ≠
      Except.error ⟨400, "Missing session_id"⟩ := by
  simp only [postChecks]
  split_ifs <;> try simp
  split <;> simp_all
  split_ifs <;> simp

/-- Helper: an abort of the status-assignment section with the
missing-session message can only come from the guarded branch: more than
one slot, no session id, role below ADVANCED. -/
lemma assignStatus_session_error (env : Env) (role : Int) (data : ReqData)
    (slots : List TimeSlot)
    (h : (assignStatus env role data slots).1 =
      Except.error ⟨400, "Missing session_id"⟩) :
    1 < slots.length ∧ data.session_id = none ∧ role < UserRole.ADVANCED := by
  revert h
  simp only [assignStatus]
  split_ifs <;> intro h <;> simp_all

/-- C3 counterexample: an ADVANCED caller posting two time slots without
a session id is not rejected; the create succeeds, refuting the claim
that a missing session id is rejected for every caller role whenever
more than one slot is requested. -/
theorem c3_counterexample :
    (reservationPost envW UserRole.ADVANCED "alice" dataTwoNoSess).1 =
      Except.ok (7, { dataTwoNoSess with
        status := some ResvStatus.CONFIRMED
        secu_level := some SecuLevel.PUBLIC
        username := some "alice" }) := by
  rfl

/-- C3 amended: for a caller with role below ADVANCED (and above
BLOCKED), a create request with more than one time slot and no session
id is rejected with a validation error before any storage interaction;
a single-slot request, or a request by an ADVANCED-or-above caller,
never fails with the missing-session error. -/
theorem c3_session_requirement (env : Env) (role : Int) (caller : String)
    (data : ReqData) (slots : List TimeSlot)
    (hsl : data.time_slots = some slots) (hrole : UserRole.BLOCKED < role) :
    (role < UserRole.ADVANCED → 1 < slots.length → data.session_id = none →
      data.room_id ≠ none → data.title ≠ none →
      reservationPost env role caller data =
        (Except.error ⟨400, "Missing session_id"⟩, []))
    ∧ (slots.length ≤ 1 ∨ UserRole.ADVANCED ≤ role →
      (reservationPost env role caller data).1 ≠
        Except.error ⟨400, "Missing session_id"⟩) := by
  have hname : ¬ role ≤ UserRole.BLOCKED := not_le.mpr hrole
  constructor
  · intro hadv hlen hsess hrid ht
    obtain ⟨rid, hrid'⟩ := Option.ne_none_iff_exists'.mp hrid
    obtain ⟨ttl, ht'⟩ := Option.ne_none_iff_exists'.mp ht
    have hemp : slots.isEmpty = false := by
      cases slots
      · simp at hlen
      · rfl
    have hassign : assignStatus env role data slots =
        (Except.error ⟨400, "Missing session_id"⟩, []) := by
      simp only [assignStatus]
      rw [if_neg (not_le.mpr hadv), if_pos ⟨hlen, hsess⟩]
    simp [reservationPost, hname, hrid', ht', hsl, hemp, hassign]
  · intro hcase
    have hassign : (assignStatus env role data slots).1 ≠
        Except.error ⟨400, "Missing session_id"⟩ := by
      intro h
      obtain ⟨h1, _, h3⟩ := assignStatus_session_error env role data slots h
      rcases hcase with hc | hc
      · omega
      · exact absurd h3 (not_lt.mpr hc)
    rcases hrm : data.room_id with _ | rid <;> rcases htt : data.title with _ | ttl <;>
      try (simp [reservationPost, hname, hrm, htt, hsl]; done)
    rcases hemp : slots.isEmpty with _ | _
    · simp only [reservationPost, hrm, htt, hsl, hemp, if_neg hname]
      simp only [Bool.false_eq_true, if_false]
      rcases hA : assignStatus env role data slots with ⟨r, tr⟩
      rcases r with a | st
      · have : a ≠ ⟨400, "Missing session_id"⟩ := by
          intro h
          rw [h] at hA
          exact hassign (by rw [hA])
        simpa using this
      · simpa using postChecks_not_session_error env caller _ rid slots tr
    · simp [reservationPost, hname, hrm, htt, hsl, hemp]

/-- Witness for C3 amended: a BASIC caller posting two slots without a
session id is rejected with the missing-session validation error and an
empty interaction trace. -/
theorem c3_session_requirement_witness :
    reservationPost envW UserRole.BASIC "alice"
      { dataTwoNoSess with session_id := none } =
      (Except.error ⟨400, "Missing session_id"⟩, []) := by
  have h := c3_session_requirement envW UserRole.BASIC "alice"
    { dataTwoNoSess with session_id := none } [slotA, slotB] rfl (by norm_num [UserRole.BLOCKED, UserRole.BASIC])
  exact h.1 (by norm_num [UserRole.BASIC, UserRole.ADVANCED]) (by simp) rfl (by simp [dataTwoNoSess, dataW]) (by simp [dataTwoNoSess, dataW])

/-- C4: evaluation of the privacy filter of the public listing at a
failing input. The ANONYMOUS row does come back without its username,
but the PRIVATE row comes back unchanged, username included, because the
PRIVATE branch of the loop rebinds the loop variable instead of writing
the reduced dict back into the result list. This contradicts the claim
that a PRIVATE reservation is returned with only start_time, end_time,
status and room_id. -/
theorem c4_private_row_leaks_username :
    checkPrivacy [rowAnon, rowPrivate] = [popField rowAnon "username", rowPrivate]
    ∧ dictGet rowPrivate "username" = some (Value.str "bob")
    ∧ rowPrivate ≠ privateView rowPrivate := by
  refine ⟨rfl, rfl, ?_⟩
  decide

/-- C5: a storage error raised by the insert is never a crash: a
duplicate-entry violation is mapped to the 409 conflict response and any
other database error to the 500 response, and the two responses are
distinct. -/
theorem c5_insert_error_mapping (env : Env) (caller : String) (d : ReqData)
    (room_id : Nat) (slots : List TimeSlot) (tr : List Effect) (err : DBError)
    (hroom : env.room_available room_id = true) (hq : env.below_max_daily caller = true)
    (hp : env.is_comb_of_periods slots = true)
    (hins : env.insert { d with username := some caller } = Except.error err) :
    (postChecks env caller d room_id slots tr).1 =
      (if err.errno = ER_DUP_ENTRY then
        Except.error ⟨409, "Reservation already exists"⟩
      else
        Except.error ⟨500, "Database error: " ++ err.msg⟩)
    ∧ (⟨409, "Reservation already exists"⟩ : Abort) ≠
        ⟨500, "Database error: " ++ err.msg⟩ := by
  constructor
  · simp [postChecks, hroom, hq, hp, hins]
    split_ifs <;> rfl
  · intro h
    exact absurd (congrArg Abort.code h) (by norm_num)

/-- Witness for C5: a duplicate-entry insert error surfaces as the 409
conflict response. -/
theorem c5_insert_error_mapping_witness :
    (postChecks { envW with insert := fun _ => Except.error ⟨1062, "dup"⟩ }
      "alice" dataW 1 [slotA] []).1 =
      Except.error ⟨409, "Reservation already exists"⟩ := by
  have h := c5_insert_error_mapping
    { envW with insert := fun _ => Except.error ⟨1062, "dup"⟩ }
    "alice" dataW 1 [slotA] [] ⟨1062, "dup"⟩ rfl rfl rfl rfl
  simpa [ER_DUP_ENTRY] using h.1

/-- C6: a patch whose payload contains a field outside title, note,
status, or a status value other than CANCELLED, is rejected with a
client error for every caller role, and the update is never called. -/
theorem c6_patch_validation (upd : Nat → String → Row → Except DBError Unit)
    (role : Int) (caller : String) (body : PatchBody) (d : Row)
    (hd : body.data = some d)
    (hbad : d.any (fun kv => ¬ patchAllowedKey kv.1) = true ∨
      (dictGet d "status" ≠ none ∧
        dictGet d "status" ≠ some (Value.status ResvStatus.CANCELLED))) :
    isClientError (reservationPatch upd role caller body).1 = true ∧
    (reservationPatch upd role caller body).2 = false := by
  by_cases hrole : role ≤ UserRole.BLOCKED
  · simp [reservationPatch, hrole, isClientError]
  · rcases hrv : body.resv_id with _ | rid
    · simp [reservationPatch, hrole, hrv, hd, isClientError]
    · by_cases hst : dictGet d "status" ≠ none ∧
        dictGet d "status" ≠ some (Value.status ResvStatus.CANCELLED)
      · simp [reservationPatch, hrole, hrv, hd, hst, isClientError]
      · have hfields : d.any (fun kv => ¬ patchAllowedKey kv.1) = true := by
          rcases hbad with h | h
          · exact h
          · exact absurd h hst
        simp only [reservationPatch, hrv, hd, if_neg hrole, if_neg hst]
        rw [if_pos hfields]
        simp [isClientError]

/-- Witness for C6: a BASIC caller patching status to CONFIRMED is
rejected and no update is written. -/
theorem c6_patch_validation_witness :
    isClientError (reservationPatch (fun _ _ _ => Except.ok ()) 1 "alice"
      ⟨some 3, some [("status", Value.status ResvStatus.CONFIRMED)]⟩).1 = true ∧
    (reservationPatch (fun _ _ _ => Except.ok ()) 1 "alice"
      ⟨some 3, some [("status", Value.status ResvStatus.CONFIRMED)]⟩).2 = false := by
  exact c6_patch_validation (fun _ _ _ => Except.ok ()) 1 "alice"
    ⟨some 3, some [("status", Value.status ResvStatus.CONFIRMED)]⟩
    [("status", Value.status ResvStatus.CONFIRMED)] rfl
    (Or.inr (by constructor <;> simp [dictGet]))

/-- Helper: a filter over a list in which no two elements both satisfy
the predicate keeps at most one element. -/
lemma filter_length_le_one {α : Type} (p : α → Bool) (l : List α)
    (h : List.Pairwise (fun a b => ¬ (p a = true ∧ p b = true)) l) :
    (l.filter p).length ≤ 1 := by
  induction l with
  | nil => simp
  | cons a t ih =>
    rcases List.pairwise_cons.mp h with ⟨ha, ht⟩
    by_cases hpa : p a = true
    · have hnil : t.filter p = [] :=
        List.filter_eq_nil_iff.mpr (fun b hb hpb => ha b hb ⟨hpa, hpb⟩)
      simp [List.filter_cons, hpa, hnil]
    · simp only [List.filter_cons, if_neg hpa]
      exact ih ht

/-- Helper: filtering by a predicate and by its pointwise complement
partitions the length of a list. -/
lemma length_filter_partition {α : Type} (p q : α → Bool) (l : List α)
    (h : ∀ a, q a = ! p a) : (l.filter q).length + (l.filter p).length = l.length := by
  induction l with
  | nil => rfl
  | cons a t ih =>
    by_cases hpa : p a = true <;>
      simp [List.filter_cons, hpa, h a] <;> omega

/-- C7 counterexample: a well-formed delete request for a slot that does
not belong to the caller returns the success response while removing
zero rows, refuting the claim that on success exactly one slot row is
removed. -/
theorem c7_counterexample :
    (reservationDelete UserRole.BASIC "alice"
      [("resv_id", 5), ("slot_id", 8)] tableW).1 =
        Except.ok "Time slot deleted successfully"
    ∧ (reservationDelete UserRole.BASIC "alice"
      [("resv_id", 5), ("slot_id", 8)] tableW).2 = tableW := by
  constructor <;> rfl

/-- C7 amended: for a caller above BLOCKED, the delete request is
rejected with a client error unless the body key set is exactly resv_id
and slot_id; on success the rows removed are exactly the table rows
matching the requested resv_id, slot_id and the caller username — at
most one row when (resv_id, slot_id) is a key of the table, and possibly
zero when no such slot of the caller exists. -/
theorem c7_delete_scoped (role : Int) (caller : String)
    (body : List (String × Nat)) (table : List SlotRow)
    (hrole : UserRole.BLOCKED < role) :
    (keySetIs body "resv_id" "slot_id" = false →
      reservationDelete role caller body table =
        (Except.error ⟨400, "Invalid or missing fields"⟩, table))
    ∧ (keySetIs body "resv_id" "slot_id" = true →
      (reservationDelete role caller body table).1 =
        Except.ok "Time slot deleted successfully"
      ∧ (reservationDelete role caller body table).2.length +
          (table.filter (fun r => r.resv_id = (bodyGet body "resv_id").getD 0 ∧
            r.slot_id = (bodyGet body "slot_id").getD 0 ∧
            r.username = caller)).length = table.length
      ∧ (∀ r ∈ table, r ∉ (reservationDelete role caller body table).2 →
          r.resv_id = (bodyGet body "resv_id").getD 0 ∧
          r.slot_id = (bodyGet body "slot_id").getD 0 ∧ r.username = caller)
      ∧ (List.Pairwise
            (fun r1 r2 => ¬ (r1.resv_id = r2.resv_id ∧ r1.slot_id = r2.slot_id))
            table →
          (table.filter (fun r => r.resv_id = (bodyGet body "resv_id").getD 0 ∧
            r.slot_id = (bodyGet body "slot_id").getD 0 ∧
            r.username = caller)).length ≤ 1)) := by
  have hname : ¬ role ≤ UserRole.BLOCKED := not_le.mpr hrole
  constructor
  · intro hk
    simp [reservationDelete, hname, hk]
  · intro hk
    have hres : reservationDelete role caller body table =
        (Except.ok "Time slot deleted successfully",
          deleteWhere table ((bodyGet body "resv_id").getD 0)
            ((bodyGet body "slot_id").getD 0) caller) := by
      simp [reservationDelete, hname, hk]
    refine ⟨by rw [hres], ?_, ?_, ?_⟩
    · rw [hres]
      exact length_filter_partition _ _ table (fun r => by
        by_cases hm : r.resv_id = (bodyGet body "resv_id").getD 0 ∧
            r.slot_id = (bodyGet body "slot_id").getD 0 ∧ r.username = caller <;>
          simp [deleteWhere, hm])
    · intro r hr hnr
      rw [hres] at hnr
      simp only [deleteWhere, List.mem_filter] at hnr
      by_contra hm
      refine hnr ⟨hr, ?_⟩
      simp only [decide_eq_true_eq]
      tauto
    · intro huniq
      refine filter_length_le_one _ table (huniq.imp ?_)
      intro r1 r2 hne h12
      rcases h12 with ⟨hm1, hm2⟩
      simp only [decide_eq_true_eq] at hm1 hm2
      exact hne ⟨hm1.1.trans hm2.1.symm, hm1.2.1.trans hm2.2.1.symm⟩

/-- Witness for C7 amended: deleting the own slot of the caller removes
exactly that row. -/
theorem c7_delete_scoped_witness :
    (reservationDelete UserRole.BASIC "bob"
      [("resv_id", 5), ("slot_id", 8)] tableW).1 =
        Except.ok "Time slot deleted successfully" := by
  exact ((c7_delete_scoped UserRole.BASIC "bob" [("resv_id", 5), ("slot_id", 8)]
    tableW (by norm_num [UserRole.BLOCKED, UserRole.BASIC])).2 (by rfl)).1

/-- C8: a create request with a missing room_id, title or time_slots
key, or with an empty time_slots list, fails validation with a client
error and an empty interaction trace — no storage read or write happens
and the status classification is never reached. The equations hold for
every environment, so the outcome is independent of storage state. -/
theorem c8_validation_before_storage (env : Env) (role : Int) (caller : String)
    (data : ReqData) (hrole : UserRole.BLOCKED < role) :
    (data.room_id = none ∨ data.title = none ∨ data.time_slots = none →
      reservationPost env role caller data =
        (Except.error ⟨400, "Missing required fields"⟩, []))
    ∧ (data.time_slots = some [] → data.room_id ≠ none → data.title ≠ none →
      reservationPost env role caller data =
        (Except.error ⟨400, "Time_slots cannot be empty"⟩, [])) := by
  have hname : ¬ role ≤ UserRole.BLOCKED := not_le.mpr hrole
  constructor
  · intro h
    rcases hrm : data.room_id with _ | rid <;>
      rcases htt : data.title with _ | ttl <;>
      rcases hts : data.time_slots with _ | slots <;>
      simp [reservationPost, hname, hrm, htt, hts] <;> simp_all
  · intro hts hrid ht
    obtain ⟨rid, hrid'⟩ := Option.ne_none_iff_exists'.mp hrid
    obtain ⟨ttl, ht'⟩ := Option.ne_none_iff_exists'.mp ht
    simp [reservationPost, hname, hrid', ht', hts]

/-- Witness for C8: a request without a title is rejected with the
missing-fields validation error and an empty trace. -/
theorem c8_validation_before_storage_witness :
    reservationPost envW 1 "alice" { dataW with title := none } =
      (Except.error ⟨400, "Missing required fields"⟩, []) := by
  exact (c8_validation_before_storage envW 1 "alice" { dataW with title := none }
    (by norm_num [UserRole.BLOCKED])).1 (Or.inr (Or.inl rfl))

/-- Helper: matching against the where dict produced by a dict update is
matching against the other entries together with the updated entry. -/
lemma matchesWhere_dictSet (r : QDict) (args : QDict) (k v : String) :
    matchesWhere r (dictSet args k v) =
      (matchesWhere r (args.filter (fun kv => kv.1 ≠ k)) && matchKV r (k, v)) := by
  by_cases hany : args.any (fun kv => kv.1 = k) = true
  · simp only [dictSet, if_pos hany]
    rw [Bool.eq_iff_iff]
    simp only [matchesWhere, List.all_eq_true, Bool.and_eq_true, List.mem_map,
      List.mem_filter, decide_eq_true_eq]
    constructor
    · intro h
      refine ⟨?_, ?_⟩
      · intro kv hkv
        have := h _ ⟨kv, hkv.1, rfl⟩
        rwa [if_neg hkv.2] at this
      · obtain ⟨a, ha, hak⟩ := List.any_eq_true.mp hany
        have := h _ ⟨a, ha, rfl⟩
        rwa [if_pos (of_decide_eq_true hak)] at this
    · intro h x hx
      obtain ⟨a, ha, rfl⟩ := hx
      by_cases hak : a.1 = k
      · rw [if_pos hak]
        exact h.2
      · rw [if_neg hak]
        exact h.1 a ⟨ha, hak⟩
  · simp only [dictSet, if_neg hany]
    have hall : ∀ kv ∈ args, ¬ kv.1 = k := by
      intro kv hkv hk
      exact hany (List.any_eq_true.mpr ⟨kv, hkv, decide_eq_true hk⟩)
    have hfe : args.filter (fun kv => kv.1 ≠ k) = args := by
      rw [List.filter_eq_self]
      intro a ha
      exact decide_eq_true (hall a ha)
    rw [hfe]
    simp [matchesWhere]

/-- C9: the user reservation listing is owner-scoped: two requests by the
same caller whose query args agree outside the username key produce the
same listing, and every returned row carries the username of the caller,
regardless of any username query parameter. -/
theorem c9_owner_scoped_listing (table : List QDict) (caller : String)
    (args1 args2 : QDict)
    (h : args1.filter (fun kv => kv.1 ≠ "username") =
      args2.filter (fun kv => kv.1 ≠ "username")) :
    userReservationGet table caller args1 = userReservationGet table caller args2
    ∧ ∀ r ∈ userReservationGet table caller args1,
        rowGet r "username" = some caller := by
  constructor
  · unfold userReservationGet reservationSelect
    apply List.filter_congr
    intro r hr
    rw [matchesWhere_dictSet, matchesWhere_dictSet, h]
  · intro r hr
    unfold userReservationGet reservationSelect at hr
    rw [List.mem_filter, matchesWhere_dictSet, Bool.and_eq_true] at hr
    have h2 := hr.2.2
    simpa [matchKV] using h2

/-- Witness for C9: a username query parameter naming another user does
not change the owner-scoped result. -/
theorem c9_owner_scoped_listing_witness :
    userReservationGet [[("username", "alice"), ("room_id", "1")],
        [("username", "bob"), ("room_id", "1")]] "alice" [("room_id", "1")] =
      userReservationGet [[("username", "alice"), ("room_id", "1")],
        [("username", "bob"), ("room_id", "1")]] "alice"
        [("username", "bob"), ("room_id", "1")] := by
  exact (c9_owner_scoped_listing _ "alice" [("room_id", "1")]
    [("username", "bob"), ("room_id", "1")] (by rfl)).1

/-- Helper: on a successful create, the inserted payload carries the
caller username, the PUBLIC visibility, and exactly the status computed
by the status-assignment section. -/
lemma reservationPost_ok_fields (env : Env) (role : Int) (caller : String)
    (data : ReqData) (rid : Nat) (dfin : ReqData)
    (h : (reservationPost env role caller data).1 = Except.ok (rid, dfin)) :
    dfin.username = some caller ∧ dfin.secu_level = some SecuLevel.PUBLIC ∧
    ∃ st, (assignStatus env role data (data.time_slots.getD [])).1 = Except.ok st ∧
      dfin.status = some st := by
  obtain ⟨rm, tt, ts, nt, se, st0, sl0, us0⟩ := data
  revert h
  by_cases hrole : role ≤ UserRole.BLOCKED
  · simp [reservationPost, hrole]
  · rcases rm with _ | room <;> rcases tt with _ | ttl <;> rcases ts with _ | slots <;>
      simp only [reservationPost, if_neg hrole] <;>
      try (intro h; simp at h; done)
    rcases hemp : slots.isEmpty with _ | _
    · simp only [hemp, Bool.false_eq_true, if_false]
      rcases hA : assignStatus env role
          ⟨some room, some ttl, some slots, nt, se, st0, sl0, us0⟩ slots with ⟨res, tr⟩
      rcases res with a | st
      · simp only [hA]
        intro h
        simp at h
      · simp only [hA, postChecks]
        split_ifs <;> try (intro h; simp at h; done)
        rcases hins : env.insert
            ⟨some room, some ttl, some slots, nt, se, some st,
              some SecuLevel.PUBLIC, some caller⟩ with err | rid2
        · simp only [hins]
          intro h
          split_ifs at h <;> simp at h
        · simp only [hins]
          intro h
          simp at h
          refine ⟨?_, ?_, st, ?_, ?_⟩ <;> simp [← h.2, hA]
    · simp [hemp]

/-- C10: the create handler ignores client-supplied status, secu_level
and username: two requests by the same caller agreeing on room_id,
title, time_slots, note and session_id produce the same outcome and
trace, and on success the persisted payload carries the caller username,
PUBLIC visibility, and the status computed by the admission logic. -/
theorem c10_client_identity_ignored (env : Env) (role : Int) (caller : String)
    (d1 d2 : ReqData) (h1 : d1.room_id = d2.room_id) (h2 : d1.title = d2.title)
    (h3 : d1.time_slots = d2.time_slots) (h4 : d1.note = d2.note)
    (h5 : d1.session_id = d2.session_id) :
    reservationPost env role caller d1 = reservationPost env role caller d2
    ∧ ∀ rid dfin, (reservationPost env role caller d1).1 = Except.ok (rid, dfin) →
        dfin.username = some caller ∧ dfin.secu_level = some SecuLevel.PUBLIC ∧
        ∃ st, (assignStatus env role d1 (d1.time_slots.getD [])).1 = Except.ok st ∧
          dfin.status = some st := by
  constructor
  · obtain ⟨a1, b1, c1, n1, e1, s1, l1, u1⟩ := d1
    obtain ⟨a2, b2, c2, n2, e2, s2, l2, u2⟩ := d2
    dsimp only at h1 h2 h3 h4 h5
    subst h1 h2 h3 h4 h5
    simp [reservationPost, assignStatus, postChecks]
  · intro rid dfin h
    exact reservationPost_ok_fields env role caller d1 rid dfin h

/-- Witness for C10: client-supplied status, secu_level and username in
the body do not change the outcome of the create. -/
theorem c10_client_identity_ignored_witness :
    reservationPost envW 1 "alice" dataW =
      reservationPost envW 1 "alice" { dataW with
        status := some ResvStatus.CANCELLED
        secu_level := some SecuLevel.PRIVATE
        username := some "mallory" } := by
  exact (c10_client_identity_ignored envW 1 "alice" dataW
    { dataW with
      status := some ResvStatus.CANCELLED
      secu_level := some SecuLevel.PRIVATE
      username := some "mallory" } rfl rfl rfl rfl rfl).1

end RRS
